import Mathlib

/-!
Verification of the Genesis Mesh node runtime against its specification.

The definitions below are a shallow embedding of the Python sources under
`genesis_mesh/`: Pydantic models become structures, `datetime` values become
`Int` (epoch seconds), Python dicts become association lists with
insertion-order-preserving update (`dinsert`), and Ed25519 signature
verification (`verify_model_signature`) is an explicit function parameter,
since its outcome depends on cryptographic key material external to the
embedded code.  Each embedded function mirrors the statement order and the
truthiness tests of its Python source.
-/

namespace GenesisMesh

/-- Python dict lookup: first (and only) binding of a key. -/
def dlookup {κ α : Type} [DecidableEq κ] (k : κ) : List (κ × α) → Option α
  | [] => none
  | (k2, v2) :: rest => if k = k2 then some v2 else dlookup k rest

/-- Python dict update `d[k] = v`: replaces the value in place if the key is
present, otherwise appends the binding (insertion order preserved). -/
def dinsert {κ α : Type} [DecidableEq κ] (k : κ) (v : α) : List (κ × α) → List (κ × α)
  | [] => [(k, v)]
  | (k2, v2) :: rest => if k = k2 then (k, v) :: rest else (k2, v2) :: dinsert k v rest

theorem dlookup_dinsert_self {κ α : Type} [DecidableEq κ] (k : κ) (v : α)
    (d : List (κ × α)) : dlookup k (dinsert k v d) = some v := by
  induction d with
  | nil => simp [dinsert, dlookup]
  | cons hd tl ih =>
    obtain ⟨k2, v2⟩ := hd
    by_cases h : k = k2 <;> simp [dinsert, dlookup, h, ih]

theorem dlookup_dinsert_ne {κ α : Type} [DecidableEq κ] (k k2 : κ) (v : α)
    (d : List (κ × α)) (h : k ≠ k2) : dlookup k (dinsert k2 v d) = dlookup k d := by
  induction d with
  | nil => simp [dinsert, dlookup, h]
  | cons hd tl ih =>
    obtain ⟨k3, v3⟩ := hd
    by_cases h2 : k2 = k3
    · subst h2; simp [dinsert, dlookup, h]
    · by_cases h3 : k = k3 <;> simp [dinsert, dlookup, h2, h3, ih]

/-- `models/genesis.py` `Signature`: key identifier plus base64 signature. -/
structure Signature where
  key_id : String
  sig : String
  deriving DecidableEq, Repr

/-- `models/genesis.py` `NetworkAuthority`. -/
structure NetworkAuthority where
  public_key : String
  valid_from : Int
  valid_to : Int
  deriving DecidableEq, Repr

/-- `models/genesis.py` `PolicyManifestRef`. -/
structure PolicyManifestRef where
  hash : String
  url : Option String
  deriving DecidableEq, Repr

/-- `models/genesis.py` `BootstrapAnchor`. -/
structure BootstrapAnchor where
  id : String
  endpoint : String
  deriving DecidableEq, Repr

/-- `models/genesis.py` `GenesisBlock`. -/
structure GenesisBlock where
  network_name : String
  network_version : String
  root_public_key : String
  network_authority : NetworkAuthority
  allowed_crypto_suites : List String
  allowed_transports : List String
  policy_manifest : PolicyManifestRef
  bootstrap_anchors : List BootstrapAnchor
  signatures : List Signature
  deriving DecidableEq, Repr

/-- `models/certificates.py` `JoinCertificate`: the exact field set of the
schema (besides the two methods `to_canonical_json` and `is_valid`). -/
structure JoinCertificate where
  cert_id : String
  node_public_key : String
  network_name : String
  roles : List String
  issued_at : Int
  expires_at : Int
  issued_by : String
  signatures : List Signature
  deriving DecidableEq, Repr

/-- `JoinCertificate.is_valid`: `self.issued_at <= current_time <= self.expires_at`. -/
def JoinCertificate.is_valid (cert : JoinCertificate) (current_time : Int) : Bool :=
  decide (cert.issued_at ≤ current_time ∧ current_time ≤ cert.expires_at)

/-- `MeshNode._verify_join_certificate` from `node/node.py`, lines 133-161.
`verify` stands for `verify_model_signature` applied to the certificate model;
the node passes the NA public key taken from the genesis block.  `t` is the
evaluation time (`datetime.utcnow()` inside `is_valid`). -/
def verify_join_certificate (verify : JoinCertificate → Signature → String → Bool)
    (gb : GenesisBlock) (cert : JoinCertificate) (t : Int) : Bool :=
  if cert.network_name ≠ gb.network_name then false
  else if !(cert.is_valid t) then false
  else cert.signatures.any fun s => verify cert s gb.network_authority.public_key

/-- `MeshNode._verify_genesis_block` from `node/node.py`, lines 63-82:
rejects an empty signature list, then requires every listed signature to
verify against the root public key. -/
def verify_genesis_block (verify : GenesisBlock → Signature → String → Bool)
    (gb : GenesisBlock) : Bool :=
  if gb.signatures.isEmpty then false
  else gb.signatures.all fun s => verify gb s gb.root_public_key

/-- The node state `MeshNode.__init__` establishes (the fields relevant to
trust; the keypair is external key material). -/
structure MeshNode where
  genesis_block : GenesisBlock
  roles : List String
  deriving DecidableEq, Repr

/-- `MeshNode.__init__` from `node/node.py`, lines 35-61: raises `ValueError`
(modelled as `Except.error`) when `_verify_genesis_block` fails, otherwise
yields the constructed node. -/
def MeshNode.init (verify : GenesisBlock → Signature → String → Bool)
    (gb : GenesisBlock) (roles : List String) : Except String MeshNode :=
  if verify_genesis_block verify gb then
    Except.ok { genesis_block := gb, roles := roles }
  else
    Except.error "Genesis block signature verification failed"

/-- Claim C1: a node accepts a join certificate at evaluation time `t` iff
(a) some listed signature verifies against the NA public key recorded in the
genesis block, (b) the certificate's network name equals the genesis block's,
and (c) `t` lies in the closed interval from `issued_at` to `expires_at`;
verification returns false whenever any condition fails. -/
theorem join_certificate_acceptance (verify : JoinCertificate → Signature → String → Bool)
    (gb : GenesisBlock) (cert : JoinCertificate) (t : Int) :
    verify_join_certificate verify gb cert t = true ↔
      ((∃ s ∈ cert.signatures, verify cert s gb.network_authority.public_key = true) ∧
        cert.network_name = gb.network_name ∧
        (cert.issued_at ≤ t ∧ t ≤ cert.expires_at)) := by
  unfold verify_join_certificate JoinCertificate.is_valid
  by_cases hname : cert.network_name = gb.network_name
  · by_cases hvalid : cert.issued_at ≤ t ∧ t ≤ cert.expires_at
    · simp [hname, hvalid, List.any_eq_true]
    · simp [hname, hvalid]
  · simp [hname]

/-- Claim C10: constructing a `MeshNode` succeeds iff the genesis block has a
nonempty signature list and every listed signature verifies against the
genesis block's root public key; otherwise the constructor errors. -/
theorem genesis_verification_gate (verify : GenesisBlock → Signature → String → Bool)
    (gb : GenesisBlock) (roles : List String) :
    (MeshNode.init verify gb roles).isOk = true ↔
      (gb.signatures ≠ [] ∧ ∀ s ∈ gb.signatures, verify gb s gb.root_public_key = true) := by
  unfold MeshNode.init verify_genesis_block
  by_cases hempty : gb.signatures = []
  · simp [hempty, Except.isOk, Except.toBool]
  · have hne : gb.signatures.isEmpty = false := by
      simpa [List.isEmpty_iff] using hempty
    simp only [hne, Bool.false_eq_true, if_false, List.all_eq_true]
    by_cases hall : ∀ s ∈ gb.signatures, verify gb s gb.root_public_key = true
    · rw [if_pos hall]
      simp only [Except.isOk, Except.toBool]
      exact ⟨fun _ => ⟨hempty, hall⟩, fun _ => trivial⟩
    · rw [if_neg hall]
      simp [Except.isOk, Except.toBool, hempty, hall]

/-- `routing/table.py` `Route`. -/
structure Route where
  destination : String
  next_hop : String
  metric : Int
  sequence : Int
  timestamp : Int
  learned_from : String
  deriving DecidableEq, Repr

/-- The `RoutingTable` state from `routing/table.py` (the asyncio lock and the
background maintenance task carry no data). -/
structure RoutingTable where
  node_id : String
  max_metric : Int
  routes : List (String × Route)
  neighbors : List (String × Int)
  sequences : List (String × Int)
  local_sequence : Int
  deriving DecidableEq, Repr

/-- `RoutingTable.update_route` from `routing/table.py`, lines 113-184, with
the statement order of the source preserved: self-destination test,
advertised-metric bound, neighbor membership, sequence comparison against any
existing route (note the source compares the advertised `metric` against
`existing.metric`), then the total-metric bound, and finally the store of the
route with `metric + link` and the `_sequences` bookkeeping.  Returns the new
table and the Boolean the method returns. -/
def RoutingTable.update_route (tbl : RoutingTable) (destination next_hop : String)
    (metric sequence : Int) (learned_from : String) (now : Int) : RoutingTable × Bool :=
  if destination = tbl.node_id then (tbl, false)
  else if metric > tbl.max_metric then (tbl, false)
  else
    match dlookup next_hop tbl.neighbors with
    | none => (tbl, false)
    | some link =>
      let accept : Bool :=
        match dlookup destination tbl.routes with
        | none => true
        | some existing =>
          if sequence > existing.sequence then true
          else if sequence = existing.sequence ∧ metric < existing.metric then true
          else false
      if !accept then (tbl, false)
      else
        let total_metric := metric + link
        if total_metric > tbl.max_metric then (tbl, false)
        else
          ({ tbl with
              routes := dinsert destination
                { destination := destination, next_hop := next_hop,
                  metric := total_metric, sequence := sequence,
                  timestamp := now, learned_from := learned_from } tbl.routes,
              sequences := dinsert destination sequence tbl.sequences }, true)

theorem update_route_accepts_iff (tbl : RoutingTable) (d n : String) (m s : Int)
    (lf : String) (now : Int) :
    (tbl.update_route d n m s lf now).2 = true ↔
      (d ≠ tbl.node_id ∧ m ≤ tbl.max_metric ∧
        ∃ link, dlookup n tbl.neighbors = some link ∧ m + link ≤ tbl.max_metric ∧
          ∀ ex, dlookup d tbl.routes = some ex →
            s > ex.sequence ∨ (s = ex.sequence ∧ m < ex.metric)) := by
  unfold RoutingTable.update_route
  by_cases hself : d = tbl.node_id
  · simp [hself]
  by_cases hadv : m > tbl.max_metric
  · simp [hself, hadv]
  cases hln : dlookup n tbl.neighbors with
  | none => simp [hself, hadv, hln]
  | some link =>
  cases hex : dlookup d tbl.routes with
  | none =>
    by_cases htot : m + link > tbl.max_metric
    · simp [hself, hadv, hln, hex, htot]
    · simp [hself, hadv, hln, hex, htot]
      omega
  | some ex =>
    by_cases hseq : s > ex.sequence
    · by_cases htot : m + link > tbl.max_metric
      · simp [hself, hadv, hln, hex, hseq, htot]
      · simp [hself, hadv, hln, hex, hseq, htot]
        omega
    · by_cases htie : s = ex.sequence ∧ m < ex.metric
      · by_cases htot : m + link > tbl.max_metric
        · simp [hself, hadv, hln, hex, hseq, htie, htot]
        · simp [hself, hadv, hln, hex, hseq, htie, htot]
          omega
      · simp [hself, hadv, hln, hex, hseq, htie]

theorem update_route_stores (tbl : RoutingTable) (d n : String) (m s : Int)
    (lf : String) (now : Int) (link : Int)
    (hln : dlookup n tbl.neighbors = some link)
    (hacc : (tbl.update_route d n m s lf now).2 = true) :
    dlookup d (tbl.update_route d n m s lf now).1.routes =
      some { destination := d, next_hop := n, metric := m + link,
             sequence := s, timestamp := now, learned_from := lf } := by
  obtain ⟨hself, hm, link2, hln2, htot2, hall⟩ :=
    (update_route_accepts_iff tbl d n m s lf now).mp hacc
  rw [hln] at hln2
  have heq : link = link2 := Option.some_inj.mp hln2
  rw [← heq] at htot2
  have hadv : ¬m > tbl.max_metric := by omega
  have htot : ¬m + link > tbl.max_metric := by omega
  unfold RoutingTable.update_route
  rw [hln]
  cases hex : dlookup d tbl.routes with
  | none =>
    simp [hself, hadv, htot, hex]
    exact dlookup_dinsert_self d _ tbl.routes
  | some ex =>
    rcases hall ex hex with h | h
    · simp [hself, hadv, htot, hex, h]
      exact dlookup_dinsert_self d _ tbl.routes
    · by_cases hseq : s > ex.sequence
      · simp [hself, hadv, htot, hex, hseq]
        exact dlookup_dinsert_self d _ tbl.routes
      · simp [hself, hadv, htot, hex, hseq, h]
        exact dlookup_dinsert_self d _ tbl.routes

/-- Counterexample to claim C2 as stated: a routing table with an existing
route to `D` of metric 3 and sequence 5 over neighbor `B` with link metric 1. -/
def routeTableCx : RoutingTable :=
  { node_id := "A", max_metric := 10,
    routes := [("D", { destination := "D", next_hop := "B", metric := 3,
                       sequence := 5, timestamp := 0, learned_from := "B" })],
    neighbors := [("B", 1)], sequences := [], local_sequence := 0 }

/-- Claim C2 is false as stated: the advertisement (destination `D`, sequence
5, advertised metric 2, from neighbor `B`) is accepted by `update_route`
although the condition the claim requires for acceptance at equal sequence —
new effective metric 2 + 1 strictly smaller than the stored metric 3 — does
not hold; the source compares the advertised metric 2 against the stored 3. -/
theorem update_route_claim_counterexample :
    (routeTableCx.update_route "D" "B" 2 5 "B" 7).2 = true ∧
      ¬((5 : Int) > 5 ∨ ((5 : Int) = 5 ∧ (2 : Int) + 1 < 3)) := by
  refine ⟨?_, by decide⟩
  rfl

/-- Claim C2 (amended): an advertisement (destination `D`, sequence `S`,
advertised metric `M`, neighbor `N`) is accepted iff `D` differs from the
local node id, `M ≤ max_metric`, `N` is a direct neighbor with link metric
`link`, `M + link ≤ max_metric`, and for an existing route `R` either
`S > R.sequence` or (`S = R.sequence` and the advertised metric `M` — not
`M + link` — is strictly smaller than `R.metric`); on acceptance the stored
route has `next_hop = N`, `metric = M + link`, and `sequence = S`. -/
theorem route_update_acceptance (tbl : RoutingTable) (d n : String) (m s : Int)
    (lf : String) (now : Int) :
    ((tbl.update_route d n m s lf now).2 = true ↔
      (d ≠ tbl.node_id ∧ m ≤ tbl.max_metric ∧
        ∃ link, dlookup n tbl.neighbors = some link ∧ m + link ≤ tbl.max_metric ∧
          ∀ ex, dlookup d tbl.routes = some ex →
            s > ex.sequence ∨ (s = ex.sequence ∧ m < ex.metric))) ∧
    (∀ link, dlookup n tbl.neighbors = some link →
      (tbl.update_route d n m s lf now).2 = true →
      dlookup d (tbl.update_route d n m s lf now).1.routes =
        some { destination := d, next_hop := n, metric := m + link,
               sequence := s, timestamp := now, learned_from := lf }) :=
  ⟨update_route_accepts_iff tbl d n m s lf now,
   fun link hln hacc => update_route_stores tbl d n m s lf now link hln hacc⟩

/-- `models/control_plane.py` `ControlCommand` values. -/
def ControlCommand.POLICY_UPDATE : String := "policy_update"

def ControlCommand.REVOKE_CERTIFICATE : String := "revoke_certificate"

def ControlCommand.REVOKE_NODE : String := "revoke_node"

def ControlCommand.UPDATE_BOOTSTRAP : String := "update_bootstrap"

def ControlCommand.SHUTDOWN_NODE : String := "shutdown_node"

def ControlCommand.ROTATE_KEYS : String := "rotate_keys"

/-- `models/control_plane.py` `ControlScope` values. -/
def ControlScope.NETWORK : String := "network"

def ControlScope.REGION : String := "region"

def ControlScope.NODE : String := "node"

def ControlScope.SERVICE : String := "service"

/-- `models/control_plane.py` `ControlMessageModel`.  The free-form `data`
dict is carried abstractly; none of the validation or dispatch logic embedded
here reads it. -/
structure ControlMessageModel where
  message_id : String
  command : String
  scope : String
  issuer : String
  issuer_roles : List String
  issued_at : Int
  expires_at : Option Int
  target : Option String
  data : List (String × String)
  signatures : List Signature
  deriving DecidableEq, Repr

/-- `ControlMessageModel.is_expired`: `expires_at = None` means never expires
(`if not self.expires_at`); otherwise expired when now is strictly past it. -/
def ControlMessageModel.is_expired (msg : ControlMessageModel) (now : Int) : Bool :=
  match msg.expires_at with
  | none => false
  | some t => decide (now > t)

/-- `models/control_plane.py` `RolePermissions`. -/
structure RolePermissions where
  role : String
  allowed_commands : List String
  allowed_scopes : List String
  deriving DecidableEq, Repr

/-- `models/control_plane.py` `DEFAULT_ROLE_PERMISSIONS`, lines 132-162,
transcribed entry for entry. -/
def DEFAULT_ROLE_PERMISSIONS : List RolePermissions :=
  [{ role := "role:operator",
     allowed_commands := [ControlCommand.POLICY_UPDATE, ControlCommand.UPDATE_BOOTSTRAP],
     allowed_scopes := [ControlScope.NETWORK, ControlScope.REGION] },
   { role := "role:admin",
     allowed_commands := [ControlCommand.POLICY_UPDATE, ControlCommand.REVOKE_CERTIFICATE,
       ControlCommand.REVOKE_NODE, ControlCommand.UPDATE_BOOTSTRAP,
       ControlCommand.SHUTDOWN_NODE],
     allowed_scopes := [ControlScope.NETWORK, ControlScope.REGION, ControlScope.NODE] },
   { role := "role:anchor", allowed_commands := [], allowed_scopes := [] },
   { role := "role:client", allowed_commands := [], allowed_scopes := [] }]

/-- `node/rbac.py` `RBACEnforcer` configuration state. -/
structure RBACEnforcer where
  role_permissions : List RolePermissions
  require_all_signatures : Bool
  min_signatures : Nat
  deriving DecidableEq, Repr

/-- `RBACEnforcer.__init__` defaults: the default permission matrix,
`require_all_signatures=False`, `min_signatures=1`. -/
def RBACEnforcer.default : RBACEnforcer :=
  { role_permissions := DEFAULT_ROLE_PERMISSIONS,
    require_all_signatures := false, min_signatures := 1 }

/-- `RBACEnforcer._permission_map`: the dict comprehension keyed by role
(later entries of the list override earlier ones, as in a Python dict). -/
def RBACEnforcer.permission_map (e : RBACEnforcer) (role : String) : Option RolePermissions :=
  e.role_permissions.foldl (fun acc rp => if rp.role = role then some rp else acc) none

/-- `RBACEnforcer._check_role_permission` from `node/rbac.py`, lines 135-164:
unknown role denied; otherwise both the command and the scope must be listed. -/
def RBACEnforcer.check_role_permission (e : RBACEnforcer)
    (role command scope : String) : Bool :=
  match e.permission_map role with
  | none => false
  | some permissions =>
    if command ∉ permissions.allowed_commands then false
    else if scope ∉ permissions.allowed_scopes then false
    else true

/-- `RBACEnforcer.validate_control_message` from `node/rbac.py`, lines 50-133:
expiry check, nonempty signature list, a key map from the issuer binding
updated by `additional_keys`, per-signature verification (a missing key id or
a falsy public key counts the signature invalid), the threshold or
all-signatures mode, and finally the role/command/scope permission test. -/
def RBACEnforcer.validate_control_message (e : RBACEnforcer)
    (verify : ControlMessageModel → Signature → String → Bool)
    (msg : ControlMessageModel) (public_key : String)
    (additional_keys : List (String × String)) (now : Int) : Bool × Option String :=
  if msg.is_expired now then (false, some "Control message has expired")
  else if msg.signatures.isEmpty then (false, some "Control message has no signature")
  else
    let key_map := additional_keys.foldl (fun kmap kv => dinsert kv.1 kv.2 kmap)
      [(msg.issuer, public_key)]
    let valid_count := (msg.signatures.filter fun s =>
      match dlookup s.key_id key_map with
      | none => false
      | some pk => if pk = "" then false else verify msg s pk).length
    let invalid_count := msg.signatures.length - valid_count
    let sig_fail : Option String :=
      if e.require_all_signatures then
        if invalid_count > 0 then some "Not all signatures are valid" else none
      else
        if valid_count < e.min_signatures then some "Insufficient valid signatures" else none
    match sig_fail with
    | some err => (false, some err)
    | none =>
      if !(msg.issuer_roles.any fun r => e.check_role_permission r msg.command msg.scope) then
        (false, some "Issuer roles not authorized")
      else (true, none)

/-- Claim C5 is false as stated: under the default permission matrix
`role:admin` is denied the `rotate_keys` command even at `network` scope, and
denied the `policy_update` command at `service` scope. -/
theorem admin_permissions_counterexample :
    RBACEnforcer.default.check_role_permission "role:admin"
        ControlCommand.ROTATE_KEYS ControlScope.NETWORK = false ∧
    RBACEnforcer.default.check_role_permission "role:admin"
        ControlCommand.POLICY_UPDATE ControlScope.SERVICE = false := by
  decide

/-- Claim C5 (amended): under the default permission matrix `role:admin` is
authorized exactly for the five commands policy_update, revoke_certificate,
revoke_node, update_bootstrap and shutdown_node in the three scopes network,
region and node; the sixth command rotate_keys is denied in every scope and
every command is denied at service scope. -/
theorem admin_default_permissions :
    ([ControlCommand.POLICY_UPDATE, ControlCommand.REVOKE_CERTIFICATE,
      ControlCommand.REVOKE_NODE, ControlCommand.UPDATE_BOOTSTRAP,
      ControlCommand.SHUTDOWN_NODE].all fun c =>
      [ControlScope.NETWORK, ControlScope.REGION, ControlScope.NODE].all fun sc =>
        RBACEnforcer.default.check_role_permission "role:admin" c sc) = true ∧
    ([ControlScope.NETWORK, ControlScope.REGION, ControlScope.NODE,
      ControlScope.SERVICE].all fun sc =>
      !(RBACEnforcer.default.check_role_permission "role:admin"
          ControlCommand.ROTATE_KEYS sc)) = true ∧
    ([ControlCommand.POLICY_UPDATE, ControlCommand.REVOKE_CERTIFICATE,
      ControlCommand.REVOKE_NODE, ControlCommand.UPDATE_BOOTSTRAP,
      ControlCommand.SHUTDOWN_NODE, ControlCommand.ROTATE_KEYS].all fun c =>
      !(RBACEnforcer.default.check_role_permission "role:admin" c
          ControlScope.SERVICE)) = true := by
  decide

/-- The `ControlMessageHandler` replay-protection state from
`node/control_handler.py`: the `_processed_messages` map (message id to
processed-at time) and the set of registered command handlers (`_handlers`,
by default the five commands of `_register_default_handlers`).  The
revocation caches, callbacks and bootstrap list do not affect the
accept/replay logic. -/
structure ControlHandlerState where
  node_id : String
  processed_messages : List (String × Int)
  handlers : List String
  deriving DecidableEq, Repr

/-- `_register_default_handlers` from `node/control_handler.py`, lines 80-86. -/
def defaultHandlers : List String :=
  [ControlCommand.POLICY_UPDATE, ControlCommand.REVOKE_CERTIFICATE,
   ControlCommand.REVOKE_NODE, ControlCommand.UPDATE_BOOTSTRAP,
   ControlCommand.SHUTDOWN_NODE]

/-- The return site of `handle_control_message` that was reached.
`executed` means the registered handler coroutine was invoked (line 147 of
`node/control_handler.py`); whether that handler body then succeeds or raises
changes the returned tuple but not the replay cache. -/
inductive CtrlOutcome where
  | rejectedReplay
  | rejectedUnknownIssuer
  | rejectedInvalid
  | rejectedWrongTarget
  | rejectedNoHandler
  | executed
  deriving DecidableEq, Repr

/-- `ControlMessageHandler.handle_control_message` from
`node/control_handler.py`, lines 99-154, with the statement order of the
source preserved: replay-cache membership, issuer key lookup (a missing or
falsy key rejects), RBAC validation, then — before the target check — the
message id is stored in the replay cache with the current time; finally the
target test (`if message.target and message.target != self.node_id`), the
handler lookup, and the handler invocation. -/
def handle_control_message (st : ControlHandlerState) (e : RBACEnforcer)
    (verify : ControlMessageModel → Signature → String → Bool)
    (get_public_key : String → Option String)
    (msg : ControlMessageModel) (now : Int) : ControlHandlerState × CtrlOutcome :=
  if (dlookup msg.message_id st.processed_messages).isSome then
    (st, CtrlOutcome.rejectedReplay)
  else
    match get_public_key msg.issuer with
    | none => (st, CtrlOutcome.rejectedUnknownIssuer)
    | some public_key =>
      if public_key = "" then (st, CtrlOutcome.rejectedUnknownIssuer)
      else if !(e.validate_control_message verify msg public_key [] now).1 then
        (st, CtrlOutcome.rejectedInvalid)
      else
        let st2 := { st with
          processed_messages := dinsert msg.message_id now st.processed_messages }
        let target_mismatch : Bool :=
          match msg.target with
          | none => false
          | some t => decide (t ≠ "" ∧ t ≠ st.node_id)
        if target_mismatch then (st2, CtrlOutcome.rejectedWrongTarget)
        else if msg.command ∈ st2.handlers then (st2, CtrlOutcome.executed)
        else (st2, CtrlOutcome.rejectedNoHandler)

/-- Whether the issuer key resolves to a truthy public key under which RBAC
validation passes — the condition under which `handle_control_message`
reaches the mark-as-processed statement on a fresh message id. -/
def rbacAccepts (e : RBACEnforcer) (verify : ControlMessageModel → Signature → String → Bool)
    (get_public_key : String → Option String) (msg : ControlMessageModel) (now : Int) : Prop :=
  ∃ pk, get_public_key msg.issuer = some pk ∧ pk ≠ "" ∧
    (e.validate_control_message verify msg pk [] now).1 = true

/-- A concrete control message addressed to a different node but otherwise
valid: admin-signed policy update whose target is `OTHER`. -/
def ctrlMsgCx : ControlMessageModel :=
  { message_id := "m-1", command := ControlCommand.POLICY_UPDATE,
    scope := ControlScope.NETWORK, issuer := "adminKey",
    issuer_roles := ["role:admin"], issued_at := 0, expires_at := none,
    target := some "OTHER", data := [],
    signatures := [{ key_id := "adminKey", sig := "sigA" }] }

/-- A handler state for node `ME` with an empty replay cache and the default
handler table. -/
def ctrlStateCx : ControlHandlerState :=
  { node_id := "ME", processed_messages := [], handlers := defaultHandlers }

/-- A signature oracle that accepts everything (the crypto is external to the
embedded control flow). -/
def verifyAllCtrl : ControlMessageModel → Signature → String → Bool := fun _ _ _ => true

/-- A key directory that knows every issuer. -/
def getPkCx : String → Option String := fun _ => some "PK"

/-- Claim C3 is false as stated: a fresh, RBAC-valid control message whose
target is another node is rejected for the wrong target, yet its message id
is nevertheless added to the replay cache (the source marks the message
processed before the target check), so a rejected message does not leave the
replay cache unchanged. -/
theorem control_replay_claim_counterexample :
    (handle_control_message ctrlStateCx RBACEnforcer.default verifyAllCtrl getPkCx
        ctrlMsgCx 100).2 = CtrlOutcome.rejectedWrongTarget ∧
    dlookup "m-1" (handle_control_message ctrlStateCx RBACEnforcer.default verifyAllCtrl
        getPkCx ctrlMsgCx 100).1.processed_messages = some 100 := by
  refine ⟨?_, ?_⟩ <;> decide

/-- Claim C3 (amended): a control message is executed only when the issuer
key is known and truthy, RBAC validation passes, its id is not already in the
replay cache, its target (when set and nonempty) equals the local node id,
and a handler is registered for its command; the message id is present in the
replay cache after handling iff it was present before or the issuer key
resolves and RBAC passes — in particular a message rejected for a wrong
target is still cached, while RBAC-rejected and replayed messages leave the
cache unchanged; and once a message is executed, a later message bearing the
same id is rejected as a replay, so no message id is executed twice. -/
theorem control_replay_amended (st : ControlHandlerState) (e : RBACEnforcer)
    (verify : ControlMessageModel → Signature → String → Bool)
    (get_pk : String → Option String) (msg : ControlMessageModel) (now : Int)
    (msg2 : ControlMessageModel) (now2 : Int)
    (hid : msg2.message_id = msg.message_id) :
    ((handle_control_message st e verify get_pk msg now).2 = CtrlOutcome.executed →
      rbacAccepts e verify get_pk msg now ∧
      dlookup msg.message_id st.processed_messages = none ∧
      (∀ t, msg.target = some t → t = "" ∨ t = st.node_id) ∧
      msg.command ∈ st.handlers) ∧
    ((dlookup msg.message_id
        (handle_control_message st e verify get_pk msg now).1.processed_messages).isSome ↔
      ((dlookup msg.message_id st.processed_messages).isSome ∨
        rbacAccepts e verify get_pk msg now)) ∧
    ((handle_control_message st e verify get_pk msg now).2 = CtrlOutcome.executed →
      (handle_control_message (handle_control_message st e verify get_pk msg now).1
          e verify get_pk msg2 now2).2 = CtrlOutcome.rejectedReplay) := by
  cases hrep : dlookup msg.message_id st.processed_messages with
  | some v =>
    have hr : handle_control_message st e verify get_pk msg now =
        (st, CtrlOutcome.rejectedReplay) := by
      unfold handle_control_message
      rw [hrep]
      rfl
    rw [hr]
    simp [hrep]
  | none =>
    cases hpk : get_pk msg.issuer with
    | none =>
      have hr : handle_control_message st e verify get_pk msg now =
          (st, CtrlOutcome.rejectedUnknownIssuer) := by
        unfold handle_control_message
        rw [hrep, hpk]
        rfl
      rw [hr]
      simp [hrep, hpk, rbacAccepts]
    | some pk =>
      by_cases hpke : pk = ""
      · have hr : handle_control_message st e verify get_pk msg now =
            (st, CtrlOutcome.rejectedUnknownIssuer) := by
          unfold handle_control_message
          rw [hrep, hpk, hpke]
          rfl
        rw [hr]
        simp [hrep, hpk, hpke, rbacAccepts]
      · cases hval : (e.validate_control_message verify msg pk [] now).1 with
        | false =>
          have hr : handle_control_message st e verify get_pk msg now =
              (st, CtrlOutcome.rejectedInvalid) := by
            unfold handle_control_message
            rw [hrep, hpk]
            simp [hpke, hval]
          rw [hr]
          simp [hrep, hpk, hpke, hval, rbacAccepts]
        | true =>
          have hacc : rbacAccepts e verify get_pk msg now := ⟨pk, hpk, hpke, hval⟩
          have hcache : ∀ st3 : ControlHandlerState,
              st3.processed_messages = dinsert msg.message_id now st.processed_messages →
              (handle_control_message st3 e verify get_pk msg2 now2).2 =
                CtrlOutcome.rejectedReplay := by
            intro st3 h3
            unfold handle_control_message
            rw [hid, h3, dlookup_dinsert_self]
            rfl
          have hmark : dlookup msg.message_id
              (dinsert msg.message_id now st.processed_messages) = some now :=
            dlookup_dinsert_self msg.message_id now st.processed_messages
          cases htg : msg.target with
          | none =>
            by_cases hcmd : msg.command ∈ st.handlers
            · have hr : handle_control_message st e verify get_pk msg now =
                  ({ st with processed_messages :=
                      dinsert msg.message_id now st.processed_messages },
                   CtrlOutcome.executed) := by
                unfold handle_control_message
                rw [hrep, hpk]
                simp [hpke, hval, htg, hcmd]
              rw [hr]
              refine ⟨fun _ => ⟨hacc, rfl, ?_, hcmd⟩, ?_, fun _ => hcache _ rfl⟩
              · intro t ht
                cases ht
              · simp [hmark, hacc]
            · have hr : handle_control_message st e verify get_pk msg now =
                  ({ st with processed_messages :=
                      dinsert msg.message_id now st.processed_messages },
                   CtrlOutcome.rejectedNoHandler) := by
                unfold handle_control_message
                rw [hrep, hpk]
                simp [hpke, hval, htg, hcmd]
              rw [hr]
              refine ⟨(fun h => nomatch h), ?_, (fun h => nomatch h)⟩
              simp [hmark, hacc]
          | some t =>
            by_cases htgt : t ≠ "" ∧ t ≠ st.node_id
            · have hr : handle_control_message st e verify get_pk msg now =
                  ({ st with processed_messages :=
                      dinsert msg.message_id now st.processed_messages },
                   CtrlOutcome.rejectedWrongTarget) := by
                unfold handle_control_message
                rw [hrep, hpk]
                simp [hpke, hval, htg, htgt]
              rw [hr]
              refine ⟨(fun h => nomatch h), ?_, (fun h => nomatch h)⟩
              simp [hmark, hacc]
            · by_cases hcmd : msg.command ∈ st.handlers
              · have hr : handle_control_message st e verify get_pk msg now =
                    ({ st with processed_messages :=
                        dinsert msg.message_id now st.processed_messages },
                     CtrlOutcome.executed) := by
                  unfold handle_control_message
                  rw [hrep, hpk]
                  simp [hpke, hval, htg, htgt, hcmd]
                rw [hr]
                refine ⟨fun _ => ⟨hacc, rfl, ?_, hcmd⟩, ?_, fun _ => hcache _ rfl⟩
                · intro t2 ht2
                  have heq : t = t2 := Option.some_inj.mp ht2
                  rw [← heq]
                  by_cases h1 : t = ""
                  · exact Or.inl h1
                  · by_cases h2 : t = st.node_id
                    · exact Or.inr h2
                    · exact absurd ⟨h1, h2⟩ htgt
                · simp [hmark, hacc]
              · have hr : handle_control_message st e verify get_pk msg now =
                    ({ st with processed_messages :=
                        dinsert msg.message_id now st.processed_messages },
                     CtrlOutcome.rejectedNoHandler) := by
                  unfold handle_control_message
                  rw [hrep, hpk]
                  simp [hpke, hval, htg, htgt, hcmd]
                rw [hr]
                refine ⟨(fun h => nomatch h), ?_, (fun h => nomatch h)⟩
                simp [hmark, hacc]

/-- A fresh admin policy update with no target, exercising the executed path. -/
def ctrlMsgW : ControlMessageModel :=
  { ctrlMsgCx with message_id := "m-2", target := none }

/-- Witness for the amended claim C3: a concrete admin policy update with no
target is executed, and a second message with the same id is then rejected as
a replay. -/
theorem control_replay_amended_witness :
    (handle_control_message ctrlStateCx RBACEnforcer.default verifyAllCtrl getPkCx
        ctrlMsgW 100).2 = CtrlOutcome.executed ∧
    (handle_control_message
        (handle_control_message ctrlStateCx RBACEnforcer.default verifyAllCtrl getPkCx
            ctrlMsgW 100).1
        RBACEnforcer.default verifyAllCtrl getPkCx ctrlMsgW 200).2 =
      CtrlOutcome.rejectedReplay :=
  ⟨by decide,
   (control_replay_amended ctrlStateCx RBACEnforcer.default verifyAllCtrl getPkCx
       ctrlMsgW 100 ctrlMsgW 200 rfl).2.2 (by decide)⟩

/-- `models/revocation.py` `RevokedCertificate`. -/
structure RevokedCertificate where
  certificate_id : String
  revoked_at : Int
  reason : String
  issuer : String
  deriving DecidableEq, Repr

/-- `models/revocation.py` `CertificateRevocationList`. -/
structure CertificateRevocationList where
  crl_id : String
  sequence : Int
  issued_at : Int
  next_update : Int
  issuer : String
  revoked_certificates : List RevokedCertificate
  signatures : List Signature
  deriving DecidableEq, Repr

/-- The `CRLGossip` state from `gossip/crl_gossip.py`: the current CRL and
the sequence-keyed CRL cache (the gossip and cleanup tasks carry no data). -/
structure CRLGossipState where
  node_id : String
  current_crl : Option CertificateRevocationList
  crl_cache : List (Int × CertificateRevocationList)
  deriving DecidableEq, Repr

/-- `CRLGossip.handle_crl_data` from `gossip/crl_gossip.py`, lines 195-250,
with the statement order of the source preserved: a missing (or falsy)
payload is rejected, an unknown or falsy issuer key is rejected, an empty
signature list is rejected, only `crl.signatures[0]` is verified, a sequence
not strictly greater than the current CRL's is rejected, and otherwise the
CRL is installed as current and cached (the re-announcement that follows does
not change this state).  Returns the new state and the Boolean result. -/
def handle_crl_data (st : CRLGossipState)
    (verify : CertificateRevocationList → Signature → String → Bool)
    (get_public_key : String → Option String)
    (payload_crl : Option CertificateRevocationList) : CRLGossipState × Bool :=
  match payload_crl with
  | none => (st, false)
  | some crl =>
    match get_public_key crl.issuer with
    | none => (st, false)
    | some issuer_pubkey =>
      if issuer_pubkey = "" then (st, false)
      else
        match crl.signatures with
        | [] => (st, false)
        | signature :: _ =>
          if !(verify crl signature issuer_pubkey) then (st, false)
          else
            let newer : Bool :=
              match st.current_crl with
              | some current => decide (crl.sequence > current.sequence)
              | none => true
            if !newer then (st, false)
            else
              ({ st with
                  current_crl := some crl,
                  crl_cache := dinsert crl.sequence crl st.crl_cache }, true)

/-- `CRLGossip.set_crl` from `gossip/crl_gossip.py`, lines 271-280: installs
the given CRL as current unconditionally and caches it by sequence. -/
def set_crl (st : CRLGossipState) (crl : CertificateRevocationList) : CRLGossipState :=
  { st with
      current_crl := some crl,
      crl_cache := dinsert crl.sequence crl st.crl_cache }

/-- `CRLGossip.push_emergency_revocation` from `gossip/crl_gossip.py`, lines
282-306: installs the given CRL unconditionally exactly as `set_crl` does,
then broadcasts it (the broadcast does not change this state). -/
def push_emergency_revocation (st : CRLGossipState)
    (crl : CertificateRevocationList) : CRLGossipState :=
  { st with
      current_crl := some crl,
      crl_cache := dinsert crl.sequence crl st.crl_cache }

/-- A CRL of sequence 5, installed as the current one in `crlStateCx`. -/
def crlSeq5 : CertificateRevocationList :=
  { crl_id := "crl-5", sequence := 5, issued_at := 0, next_update := 100,
    issuer := "na", revoked_certificates := [], signatures := [] }

/-- A CRL of sequence 3 from the same issuer. -/
def crlSeq3 : CertificateRevocationList :=
  { crl_id := "crl-3", sequence := 3, issued_at := 0, next_update := 100,
    issuer := "na", revoked_certificates := [], signatures := [] }

/-- A gossip state currently holding the sequence-5 CRL. -/
def crlStateCx : CRLGossipState :=
  { node_id := "N", current_crl := some crlSeq5, crl_cache := [(5, crlSeq5)] }

/-- Claim C4 is false as stated: with the sequence-5 CRL current, `set_crl`
and `push_emergency_revocation` install a sequence-3 CRL unconditionally, so
the installed sequence decreases from 5 to 3. -/
theorem crl_monotonicity_counterexample :
    (set_crl crlStateCx crlSeq3).current_crl.map (fun c => c.sequence) = some 3 ∧
    (push_emergency_revocation crlStateCx crlSeq3).current_crl.map
      (fun c => c.sequence) = some 3 ∧
    crlStateCx.current_crl.map (fun c => c.sequence) = some 5 :=
  ⟨rfl, rfl, rfl⟩

/-- Claim C4 (amended): handling a `crl_data` message (and hence an emergency
CRL received from the network, which `handle_emergency_crl` delegates to the
same handler) never decreases the current CRL's sequence; by contrast
`set_crl` and `push_emergency_revocation` install the given CRL
unconditionally and may decrease it. -/
theorem crl_handle_data_monotone (st : CRLGossipState)
    (verify : CertificateRevocationList → Signature → String → Bool)
    (get_pk : String → Option String)
    (payload : Option CertificateRevocationList)
    (cur : CertificateRevocationList)
    (hcur : st.current_crl = some cur) :
    ∃ cur2, (handle_crl_data st verify get_pk payload).1.current_crl = some cur2 ∧
      cur.sequence ≤ cur2.sequence := by
  cases payload with
  | none => exact ⟨cur, by simp [handle_crl_data, hcur], le_refl _⟩
  | some crl =>
    cases hpk : get_pk crl.issuer with
    | none => exact ⟨cur, by simp [handle_crl_data, hpk, hcur], le_refl _⟩
    | some pk =>
      by_cases hpke : pk = ""
      · exact ⟨cur, by simp [handle_crl_data, hpk, hpke, hcur], le_refl _⟩
      · cases hsig : crl.signatures with
        | nil => exact ⟨cur, by simp [handle_crl_data, hpk, hpke, hsig, hcur], le_refl _⟩
        | cons s rest =>
          cases hv : verify crl s pk with
          | false =>
            exact ⟨cur, by simp [handle_crl_data, hpk, hpke, hsig, hv, hcur], le_refl _⟩
          | true =>
            by_cases hnew : crl.sequence > cur.sequence
            · refine ⟨crl, ?_, by omega⟩
              simp [handle_crl_data, hpk, hpke, hsig, hv, hcur, hnew]
            · refine ⟨cur, ?_, le_refl _⟩
              simp [handle_crl_data, hpk, hpke, hsig, hv, hcur, hnew]

/-- A signature oracle for CRLs that accepts everything. -/
def verifyAllCrl : CertificateRevocationList → Signature → String → Bool :=
  fun _ _ _ => true

/-- A CRL of sequence 7 bearing one signature. -/
def crlSeq7 : CertificateRevocationList :=
  { crl_id := "crl-7", sequence := 7, issued_at := 10, next_update := 110,
    issuer := "na", revoked_certificates := [],
    signatures := [{ key_id := "na", sig := "s7" }] }

/-- Witness for the amended claim C4: receiving the sequence-7 CRL over
`crl_data` on top of the current sequence-5 CRL leaves the current sequence
no smaller than 5. -/
theorem crl_handle_data_monotone_witness :
    crlStateCx.current_crl = some crlSeq5 ∧
    ∃ cur2, (handle_crl_data crlStateCx verifyAllCrl getPkCx
        (some crlSeq7)).1.current_crl = some cur2 ∧
      crlSeq5.sequence ≤ cur2.sequence :=
  ⟨rfl, crl_handle_data_monotone crlStateCx verifyAllCrl getPkCx (some crlSeq7)
    crlSeq5 rfl⟩

/-- Claim C9: `handle_crl_data` examines only the first entry of the CRL's
signature list — a CRL with an empty signature list is rejected with the
state unchanged, and a CRL whose first listed signature fails verification
against the issuer's key is rejected with the state unchanged regardless of
the remaining signatures. -/
theorem crl_first_signature_only (st : CRLGossipState)
    (verify : CertificateRevocationList → Signature → String → Bool)
    (get_pk : String → Option String) (crl : CertificateRevocationList) :
    (crl.signatures = [] → handle_crl_data st verify get_pk (some crl) = (st, false)) ∧
    (∀ s rest pk, crl.signatures = s :: rest →
      get_pk crl.issuer = some pk →
      verify crl s pk = false →
      handle_crl_data st verify get_pk (some crl) = (st, false)) := by
  constructor
  · intro hsig
    cases hpk : get_pk crl.issuer with
    | none => simp [handle_crl_data, hpk]
    | some pk =>
      by_cases hpke : pk = ""
      · simp [handle_crl_data, hpk, hpke]
      · simp [handle_crl_data, hpk, hpke, hsig]
  · intro s rest pk hsig hpk hv
    by_cases hpke : pk = ""
    · simp [handle_crl_data, hpk, hpke]
    · simp [handle_crl_data, hpk, hpke, hsig, hv]

/-- A CRL carrying two signatures: the first fails verification under
`verifyFirstSigOracle`, the second would verify. -/
def crlTwoSigs : CertificateRevocationList :=
  { crl_id := "crl-2s", sequence := 9, issued_at := 0, next_update := 100,
    issuer := "na", revoked_certificates := [],
    signatures := [{ key_id := "bad", sig := "x" }, { key_id := "good", sig := "y" }] }

/-- A signature oracle that rejects exactly the signatures whose key id is
`bad`. -/
def verifyFirstSigOracle : CertificateRevocationList → Signature → String → Bool :=
  fun _ sg _ => decide (sg.key_id ≠ "bad")

/-- Witness for claim C9: the two-signature CRL whose first signature fails
(and whose second would verify) is rejected with the state unchanged. -/
theorem crl_first_signature_only_witness :
    crlTwoSigs.signatures =
      { key_id := "bad", sig := "x" } :: [{ key_id := "good", sig := "y" }] ∧
    getPkCx crlTwoSigs.issuer = some "PK" ∧
    verifyFirstSigOracle crlTwoSigs { key_id := "bad", sig := "x" } "PK" = false ∧
    verifyFirstSigOracle crlTwoSigs { key_id := "good", sig := "y" } "PK" = true ∧
    handle_crl_data crlStateCx verifyFirstSigOracle getPkCx (some crlTwoSigs) =
      (crlStateCx, false) :=
  ⟨rfl, rfl, by decide, by decide,
   (crl_first_signature_only crlStateCx verifyFirstSigOracle getPkCx crlTwoSigs).2
     { key_id := "bad", sig := "x" } [{ key_id := "good", sig := "y" }] "PK"
     rfl rfl (by decide)⟩

/-- `transport/protocol.py` `MeshMessage` (the payload and signature fields
are never read by the router and are omitted here). -/
structure MeshMessage where
  message_id : String
  message_type : String
  timestamp : Int
  sender_id : String
  recipient_id : Option String
  ttl : Int
  deriving DecidableEq, Repr

/-- `MeshMessage.decrement_ttl`: decrements the TTL in place and reports
whether the message may still be forwarded (`self.ttl > 0` after the
decrement). -/
def MeshMessage.decrement_ttl (msg : MeshMessage) : MeshMessage × Bool :=
  let msg2 := { msg with ttl := msg.ttl - 1 }
  (msg2, decide (msg2.ttl > 0))

/-- The `MeshRouter` state from `routing/router.py`: the seen-message map
(`_seen_messages`, message id to the time it was first routed). -/
structure RouterState where
  node_id : String
  seen_messages : List (String × Int)
  deriving DecidableEq, Repr

/-- The forwarding decision of `MeshRouter._broadcast_message` after the
seen-cache insertion (`routing/router.py`, lines 136-161): TTL decrement,
fan-out to every neighbor except the sender, success iff a connection exists
and the send succeeds for at least one of them.  This part of the method does
not touch the router state. -/
def broadcast_fanout (tbl : RoutingTable) (get_connection send_success : String → Bool)
    (msg : MeshMessage) : Bool :=
  if !(msg.decrement_ttl).2 then false
  else
    let neighbors := (tbl.neighbors.map Prod.fst).filter fun p => p ≠ msg.sender_id
    if neighbors.isEmpty then false
    else
      decide ((neighbors.filter fun p => get_connection p && send_success p).length > 0)

/-- `MeshRouter._broadcast_message` from `routing/router.py`, lines 119-161:
an already-seen message id is dropped with the state unchanged; otherwise the
id is marked seen and the fan-out decision is computed. -/
def broadcast_message (rt : RouterState) (tbl : RoutingTable)
    (get_connection send_success : String → Bool)
    (msg : MeshMessage) (now : Int) : RouterState × Bool :=
  if (dlookup msg.message_id rt.seen_messages).isSome then (rt, false)
  else
    ({ rt with seen_messages := dinsert msg.message_id now rt.seen_messages },
     broadcast_fanout tbl get_connection send_success msg)

/-- The forwarding decision of `MeshRouter.route_message` for a unicast to
another node, after the seen-cache insertion (`routing/router.py`, lines
90-117): TTL decrement, route lookup, connection lookup, send.  This part of
the method does not touch the router state. -/
def unicast_forward (tbl : RoutingTable) (get_connection send_success : String → Bool)
    (recipient : String) (msg : MeshMessage) : Bool :=
  if !(msg.decrement_ttl).2 then false
  else
    match dlookup recipient tbl.routes with
    | none => false
    | some route =>
      if !(get_connection route.next_hop) then false
      else send_success route.next_hop

/-- `MeshRouter.route_message` from `routing/router.py`, lines 63-117, with
the statement order of the source preserved: a message whose recipient is the
local node returns True immediately — without consulting or updating the seen
cache; a broadcast goes to `_broadcast_message`; otherwise an already-seen id
is dropped, the id is marked seen, and the forwarding decision is computed.
`get_connection` tells whether a connection to a peer currently exists and
`send_success` whether sending on it succeeds. -/
def route_message (rt : RouterState) (tbl : RoutingTable)
    (get_connection send_success : String → Bool)
    (msg : MeshMessage) (now : Int) : RouterState × Bool :=
  if msg.recipient_id = some rt.node_id then (rt, true)
  else
    match msg.recipient_id with
    | none => broadcast_message rt tbl get_connection send_success msg now
    | some recipient =>
      if (dlookup msg.message_id rt.seen_messages).isSome then (rt, false)
      else
        ({ rt with seen_messages := dinsert msg.message_id now rt.seen_messages },
         unicast_forward tbl get_connection send_success recipient msg)

/-- A router for node `ME` with an empty seen cache. -/
def routerStateCx : RouterState := { node_id := "ME", seen_messages := [] }

/-- An empty routing table for node `ME`. -/
def emptyTblCx : RoutingTable :=
  { node_id := "ME", max_metric := 10, routes := [], neighbors := [],
    sequences := [], local_sequence := 0 }

/-- No connections exist. -/
def noConn : String → Bool := fun _ => false

/-- A data message addressed to the local node `ME`. -/
def localMsgCx : MeshMessage :=
  { message_id := "dup-1", message_type := "data", timestamp := 0,
    sender_id := "S", recipient_id := some "ME", ttl := 10 }

/-- Claim C7 is false as stated: a message addressed to the local node is
delivered without consulting or updating the seen cache, so a second message
bearing the same message id is delivered again rather than dropped. -/
theorem router_dedup_claim_counterexample :
    (route_message routerStateCx emptyTblCx noConn noConn localMsgCx 0).2 = true ∧
    (route_message (route_message routerStateCx emptyTblCx noConn noConn
        localMsgCx 0).1 emptyTblCx noConn noConn localMsgCx 1).2 = true :=
  ⟨rfl, rfl⟩

/-- Claim C7 (amended): within the seen-cache retention window the router
forwards a given message id at most once for messages not addressed to the
local node — a unicast to another node or a broadcast whose id is already in
the seen cache is dropped with the state unchanged, and processing a fresh
such message records its id in the seen cache; messages addressed to the
local node bypass the seen cache entirely and may be delivered repeatedly
(see the counterexample). -/
theorem router_forward_once (rt : RouterState) (tbl : RoutingTable)
    (gc ss : String → Bool) (msg : MeshMessage) (now : Int)
    (hnl : msg.recipient_id ≠ some rt.node_id) :
    ((dlookup msg.message_id rt.seen_messages).isSome = true →
      route_message rt tbl gc ss msg now = (rt, false)) ∧
    ((dlookup msg.message_id rt.seen_messages).isSome = false →
      (dlookup msg.message_id
        (route_message rt tbl gc ss msg now).1.seen_messages) = some now) := by
  constructor
  · intro hseen
    unfold route_message
    rw [if_neg hnl]
    cases hrec : msg.recipient_id with
    | none =>
      unfold broadcast_message
      rw [if_pos hseen]
    | some recipient =>
      simp [hseen]
  · intro hfresh
    unfold route_message
    rw [if_neg hnl]
    cases hrec : msg.recipient_id with
    | none =>
      unfold broadcast_message
      rw [hfresh]
      simp [dlookup_dinsert_self]
    | some recipient =>
      simp [hfresh, dlookup_dinsert_self]

/-- A data message from `S` to another node `X`. -/
def unicastMsgCx : MeshMessage :=
  { message_id := "u-1", message_type := "data", timestamp := 0,
    sender_id := "S", recipient_id := some "X", ttl := 10 }

/-- Witness for the amended claim C7: a fresh unicast to another node marks
its id seen, and the same message routed again is dropped with the state
unchanged. -/
theorem router_forward_once_witness :
    unicastMsgCx.recipient_id ≠ some routerStateCx.node_id ∧
    (dlookup unicastMsgCx.message_id
      (route_message routerStateCx emptyTblCx noConn noConn unicastMsgCx 3).1.seen_messages)
      = some 3 ∧
    route_message (route_message routerStateCx emptyTblCx noConn noConn unicastMsgCx 3).1
        emptyTblCx noConn noConn unicastMsgCx 4 =
      ((route_message routerStateCx emptyTblCx noConn noConn unicastMsgCx 3).1, false) :=
  ⟨by decide,
   (router_forward_once routerStateCx emptyTblCx noConn noConn unicastMsgCx 3
      (by decide)).2 (by decide),
   (router_forward_once
      (route_message routerStateCx emptyTblCx noConn noConn unicastMsgCx 3).1
      emptyTblCx noConn noConn unicastMsgCx 4 (by decide)).1 (by decide)⟩

/-- The dictionary `AuditEvent.to_dict` produces (`audit/logger.py`, lines
72-93): the exact key set written to the log file, one JSON object per line.
Note the key set does not include `event_hash`.  The `details` dict is
carried abstractly and the timestamp as epoch seconds. -/
structure AuditRecord where
  event_id : String
  event_type : String
  timestamp : Int
  node_id : String
  actor : Option String
  target : Option String
  action : String
  result : String
  details : List (String × String)
  previous_hash : Option String
  deriving DecidableEq, Repr

/-- A parsed line of the audit log as `verify_chain` reads it back: the
`to_dict` fields plus the value of an `event_hash` key when the line has one.
Records written by `AuditLogger._write_event` never contain that key. -/
structure StoredRecord where
  record : AuditRecord
  event_hash : Option String
  deriving DecidableEq, Repr

/-- `AuditEvent.compute_hash` (`audit/logger.py`, lines 87-93): SHA-256 over
the sorted-key JSON of `to_dict()` — `to_dict` already omits `event_hash`, so
the `pop` there is a no-op.  `H` stands for SHA-256 of that canonical JSON. -/
def compute_hash (H : AuditRecord → String) (r : AuditRecord) : String := H r

/-- The `AuditLogger` state from `audit/logger.py`: the chaining hash
`_last_hash` and the lines appended to the log file so far. -/
structure AuditLoggerState where
  node_id : String
  enable_chaining : Bool
  last_hash : Option String
  log : List StoredRecord
  deriving DecidableEq, Repr

/-- `AuditLogger.log_event` from `audit/logger.py`, lines 133-188: builds the
event with `previous_hash` equal to `_last_hash` (when chaining is enabled),
computes the event hash and advances `_last_hash` to it, and appends
`event.to_dict()` — which carries no `event_hash` key — to the log file. -/
def log_event (H : AuditRecord → String) (st : AuditLoggerState)
    (event_id event_type : String) (timestamp : Int)
    (actor target : Option String) (action result : String)
    (details : List (String × String)) : AuditLoggerState :=
  let r0 : AuditRecord :=
    { event_id := event_id, event_type := event_type, timestamp := timestamp,
      node_id := st.node_id, actor := actor, target := target,
      action := action, result := result, details := details,
      previous_hash := if st.enable_chaining then st.last_hash else none }
  let event_hash := compute_hash H r0
  { st with
      last_hash := if st.enable_chaining then some event_hash else st.last_hash,
      log := st.log ++ [{ record := r0, event_hash := none }] }

/-- The loop of `AuditLogger.verify_chain` (`audit/logger.py`, lines 366-383)
over the parsed log lines, carrying the verifier's running `previous_hash`:
each record's stored `previous_hash` must equal the running value; the
expected hash of the record without `event_hash` is recomputed but — as in
the source — never compared to anything; the running value then becomes the
record's `event_hash` key, `None` when the line has no such key. -/
def verify_chain (H : AuditRecord → String) :
    List StoredRecord → Option String → Bool
  | [], _ => true
  | r :: rest, previous_hash =>
    if r.record.previous_hash ≠ previous_hash then false
    else
      let _expected_hash := compute_hash H r.record
      verify_chain H rest r.event_hash

/-- `AuditLogger.verify_chain` from `audit/logger.py`, lines 345-387, on the
full log: vacuously true without chaining, otherwise the loop starting from
`previous_hash = None`. -/
def AuditLoggerState.verify (H : AuditRecord → String) (st : AuditLoggerState) : Bool :=
  if !st.enable_chaining then true
  else verify_chain H st.log none

/-- Claim C6 fails on the code (code bug): for every hash function and any
two events appended by the logger with chaining enabled, the verifier rejects
the logger's own unmodified log.  `to_dict` omits `event_hash`, so the
written records carry no event hash; the verifier's running hash therefore
stays `None`, while the second record's stored `previous_hash` is the real
hash of the first record — the comparison at the second record fails.  (The
recomputed expected hash is never compared to anything, so alterations to a
record body are not what the verifier detects.) -/
theorem audit_chain_code_bug (H : AuditRecord → String) (node : String)
    (id1 ty1 : String) (t1 : Int) (a1 tg1 : Option String) (ac1 r1 : String)
    (d1 : List (String × String))
    (id2 ty2 : String) (t2 : Int) (a2 tg2 : Option String) (ac2 r2 : String)
    (d2 : List (String × String)) :
    AuditLoggerState.verify H
      (log_event H
        (log_event H
          { node_id := node, enable_chaining := true, last_hash := none, log := [] }
          id1 ty1 t1 a1 tg1 ac1 r1 d1)
        id2 ty2 t2 a2 tg2 ac2 r2 d2) = false := by
  simp [AuditLoggerState.verify, log_event, verify_chain, compute_hash]

/-- Python attribute access on a `JoinCertificate`: exactly the attributes
the schema in `models/certificates.py` defines — the eight fields plus the
two methods.  Any other name raises `AttributeError`. -/
inductive PyAttr where
  | pstr : String → PyAttr
  | pint : Int → PyAttr
  | pstrList : List String → PyAttr
  | psigList : List Signature → PyAttr
  | pmethod : String → PyAttr
  deriving DecidableEq, Repr

/-- Attribute lookup on the `JoinCertificate` schema. -/
def JoinCertificate.getattr (c : JoinCertificate) : String → Option PyAttr
  | "cert_id" => some (PyAttr.pstr c.cert_id)
  | "node_public_key" => some (PyAttr.pstr c.node_public_key)
  | "network_name" => some (PyAttr.pstr c.network_name)
  | "roles" => some (PyAttr.pstrList c.roles)
  | "issued_at" => some (PyAttr.pint c.issued_at)
  | "expires_at" => some (PyAttr.pint c.expires_at)
  | "issued_by" => some (PyAttr.pstr c.issued_by)
  | "signatures" => some (PyAttr.psigList c.signatures)
  | "to_canonical_json" => some (PyAttr.pmethod "to_canonical_json")
  | "is_valid" => some (PyAttr.pmethod "is_valid")
  | _ => none

/-- `CertificateManager._should_renew` from `node/cert_manager.py`, lines
102-129, evaluated against the `JoinCertificate` schema its `get_certificate`
provider returns: the body first calls `cert.is_expired()` and then reads
`cert.valid_to` and `cert.valid_from`, names the schema does not define, so
attribute lookup raises `AttributeError` (modelled as `Except.error`).  The
threshold comparison on the remaining fraction of validity
(`percent_remaining <= self._renewal_threshold` with threshold 0.5) is
reached only when all the lookups succeed. -/
def should_renew (cert : JoinCertificate) (now : Int) : Except String Bool :=
  match cert.getattr "is_expired" with
  | none => Except.error "AttributeError: JoinCertificate has no attribute is_expired"
  | some _is_expired_method =>
    match cert.getattr "valid_to", cert.getattr "valid_from" with
    | some (PyAttr.pint valid_to), some (PyAttr.pint valid_from) =>
      Except.ok (decide ((valid_to - now) * 2 ≤ valid_to - valid_from))
    | _, _ =>
      Except.error "AttributeError: JoinCertificate has no attribute valid_to"

/-- Claim C8 fails on the code (code bug): for every join certificate and
every evaluation time, the renewal check `_should_renew` raises
`AttributeError` rather than computing the remaining-validity fraction — it
reads `is_expired`, `valid_to` and `valid_from`, none of which the
`JoinCertificate` schema defines (the schema has `is_valid`, `issued_at`,
`expires_at`).  The monitor loop catches the exception, so renewal is never
triggered. -/
theorem cert_manager_renewal_check_raises (cert : JoinCertificate) (now : Int) :
    should_renew cert now =
      Except.error "AttributeError: JoinCertificate has no attribute is_expired" :=
  rfl

end GenesisMesh
